import Mathlib

/-!
Verification of the frontend build orchestrator (build-frontend.py).

The script is modelled as a pure function from the invocation configuration
(command-line flags), the platform (Windows or not) and the behaviour of the
external tools to a log (stdout lines, stderr lines, subprocess invocations in
order) and a process termination.

External behaviour is a map from an argument vector to the result of running
that command: it exited with some status code, or its executable was not found
(FileNotFoundError).  Whether a missing executable surfaces as a
FileNotFoundError or as a shell "command not found" exit status is a property
of that map, not of the orchestrator.  An operator interrupt is modelled only
where the script observes it: during the development-server subprocess call
(the only place a KeyboardInterrupt handler exists).

The termination distinguishes an explicit sys.exit(code) from an uncaught
exception propagating out of the script; CPython ends the process with status
1 in the latter case (after printing a traceback, which is not modelled as a
formatted diagnostic line here).
-/

namespace BuildFrontend

/-- Result of the operating system running one external command. -/
inductive CmdResult where
  | exited (code : Nat)
  | notFound
deriving DecidableEq, Repr

/-- Behaviour of the environment: what each external command does when run,
and whether the operator interrupts the development server. -/
structure World where
  exec : List String → CmdResult
  devInterrupt : Bool

/-- One subprocess invocation as recorded at the operating-system boundary:
argument vector, working directory, whether a shell was interposed
(`shell=use_shell`), and whether output was captured (`capture_output`). -/
structure Invocation where
  argv : List String
  cwd : Option String
  shell : Bool
  capture : Bool
deriving DecidableEq, Repr

/-- How the orchestrator process ends: an explicit sys.exit with a code, or an
uncaught CalledProcessError or FileNotFoundError propagating to the top. -/
inductive Termination where
  | exit (code : Nat)
  | uncaughtCPE (code : Nat)
  | uncaughtFNF (name : String)
deriving DecidableEq, Repr

/-- The operating-system exit status of the whole process for a given
termination: sys.exit(c) yields c; an uncaught exception yields 1. -/
def exitStatus : Termination → Nat
  | Termination.exit c => c
  | Termination.uncaughtCPE _ => 1
  | Termination.uncaughtFNF _ => 1

/-- Observable history of a (partial) run: stdout lines, stderr lines, and the
subprocess invocations issued, each in order. -/
structure Log where
  out : List String
  err : List String
  invocations : List Invocation
deriving DecidableEq, Repr

def Log.append (a b : Log) : Log :=
  ⟨a.out ++ b.out, a.err ++ b.err, a.invocations ++ b.invocations⟩

/-- The line of sixty equals signs printed as a banner. -/
def eqBanner : String := String.mk (List.replicate 60 '=')

/-- Path joining as the script builds paths with pathlib (the separator is a
platform rendering detail; a fixed one is used throughout). -/
def pathJoin (a b : String) : String := a ++ "/" ++ b

/-- The optional description line printed by run_command before the command. -/
def descLines : Option String → List String
  | some d => ["\n" ++ d ++ "..."]
  | none => []

/-- run_command (build-frontend.py lines 15-45): print the description and the
command line, run the command without capturing output; on a non-zero exit
print the code and sys.exit(1); on a missing executable print the two
diagnostic lines and sys.exit(1).  (On Windows the command line echoed is the
same joined string, so the printed output does not depend on the platform.) -/
def run_command (windows : Bool) (w : World) (cmd : List String)
    (cwd : Option String) (description : Option String) :
    Log × Option Termination :=
  let echo : String := "$ " ++ String.intercalate " " cmd
  let inv : Invocation := ⟨cmd, cwd, windows, false⟩
  match w.exec cmd with
  | CmdResult.exited c =>
    if c = 0 then
      (⟨descLines description ++ [echo], [], [inv]⟩, none)
    else
      (⟨descLines description ++ [echo],
        ["Error: Command failed with exit code " ++ toString c], [inv]⟩,
       some (Termination.exit 1))
  | CmdResult.notFound =>
    (⟨descLines description ++ [echo],
      ["Error: Command not found: " ++ cmd.headD "",
       "Make sure " ++ cmd.headD "" ++ " is installed and in your PATH"],
      [inv]⟩,
     some (Termination.exit 1))

/-- The fixed tool table of check_prerequisites (lines 50-53), in insertion
order: tool name paired with its version-check command string. -/
def prereqTools : List (String × String) :=
  [("wasm-pack", "wasm-pack --version"), ("npm", "npm --version")]

/-- The argument vector of a version check: check_cmd.split(), the Python
whitespace split that drops empty fields. -/
def versionArgv (checkCmd : String) : List String :=
  ((checkCmd.toList.splitOn ' ').filter (fun l => l ≠ [])).map (fun l => String.mk l)

/-- The two version-check invocations, with output captured and no cwd. -/
def prereqInvs (windows : Bool) : List Invocation :=
  prereqTools.map (fun p => (⟨versionArgv p.2, none, windows, true⟩ : Invocation))

/-- check_prerequisites (lines 48-74): run every version check with output
captured, collect the names of all tools whose check did not exit zero, and if
any are missing print the whole list to stderr and sys.exit(1). -/
def check_prerequisites (windows : Bool) (w : World) : Log × Option Termination :=
  let missing : List String :=
    (prereqTools.filter
      (fun p => w.exec (versionArgv p.2) != CmdResult.exited 0)).map (fun p => p.1)
  if missing.isEmpty then
    (⟨[], [], prereqInvs windows⟩, none)
  else
    (⟨[], ["Error: Missing required tools:"] ++
          missing.map (fun t => "  - " ++ t) ++
          ["\nPlease install the missing tools and try again."],
      prereqInvs windows⟩,
     some (Termination.exit 1))

/-- The wasm-pack build argument vector (lines 86-92). -/
def wasmArgv (project_root : String) : List String :=
  ["wasm-pack", "build", pathJoin project_root "wikitext-wasm",
   "--target", "web",
   "--out-dir", pathJoin (pathJoin (pathJoin project_root "frontend") "src") "wasm"]

/-- build_wasm (lines 77-97): banner, then the wasm-pack build step via
run_command with cwd the project root, then a success line. -/
def build_wasm (windows : Bool) (w : World) (project_root : String) :
    Log × Option Termination :=
  let hdr : Log := ⟨[eqBanner, "Building WASM Module", eqBanner], [], []⟩
  let r := run_command windows w (wasmArgv project_root) (some project_root)
             (some "Building WASM module with wasm-pack")
  match r.2 with
  | some t => (hdr.append r.1, some t)
  | none =>
    (hdr.append (r.1.append ⟨["[OK] WASM module built successfully"], [], []⟩), none)

/-- install_dependencies (lines 100-112): banner, npm install via run_command
in the frontend directory, then a success line. -/
def install_dependencies (windows : Bool) (w : World) (frontend_dir : String) :
    Log × Option Termination :=
  let hdr : Log := ⟨["\n" ++ eqBanner, "Installing Frontend Dependencies", eqBanner], [], []⟩
  let r := run_command windows w ["npm", "install"] (some frontend_dir)
             (some "Installing npm packages")
  match r.2 with
  | some t => (hdr.append r.1, some t)
  | none =>
    (hdr.append (r.1.append ⟨["[OK] Dependencies installed successfully"], [], []⟩), none)

/-- build_frontend (lines 115-127): banner, npm run build via run_command in
the frontend directory, then a success line. -/
def build_frontend (windows : Bool) (w : World) (frontend_dir : String) :
    Log × Option Termination :=
  let hdr : Log := ⟨["\n" ++ eqBanner, "Building Frontend", eqBanner], [], []⟩
  let r := run_command windows w ["npm", "run", "build"] (some frontend_dir)
             (some "Building production bundle")
  match r.2 with
  | some t => (hdr.append r.1, some t)
  | none =>
    (hdr.append (r.1.append ⟨["[OK] Frontend built successfully"], [], []⟩), none)

/-- dev_server (lines 130-148): banner and hint lines, then subprocess.run of
npm run dev directly (not through run_command), catching only
KeyboardInterrupt.  An interrupt prints the stopped message and returns
normally; a non-zero exit or a missing executable raises an exception that
propagates uncaught out of the function. -/
def dev_server (windows : Bool) (w : World) (frontend_dir : String) :
    Log × Option Termination :=
  let hdr : List String :=
    ["\n" ++ eqBanner, "Starting Development Server", eqBanner,
     "\nPress Ctrl+C to stop the server\n"]
  let inv : Invocation := ⟨["npm", "run", "dev"], some frontend_dir, windows, false⟩
  if w.devInterrupt then
    (⟨hdr ++ ["\n\nDevelopment server stopped."], [], [inv]⟩, none)
  else
    match w.exec ["npm", "run", "dev"] with
    | CmdResult.exited c =>
      if c = 0 then (⟨hdr, [], [inv]⟩, none)
      else (⟨hdr, [], [inv]⟩, some (Termination.uncaughtCPE c))
    | CmdResult.notFound =>
      (⟨hdr, [], [inv]⟩, some (Termination.uncaughtFNF "npm"))

/-- The closing guidance of the production-build branch (lines 214-220). -/
def buildCompleteLines (frontend_dir : String) : List String :=
  ["\n" ++ eqBanner, "Build Complete!", eqBanner,
   "\nProduction build available in: " ++ pathJoin frontend_dir "dist",
   "\nTo preview the production build:",
   "  cd " ++ frontend_dir,
   "  npm run preview"]

/-- The manual next-step guidance of the default branch (lines 224-233). -/
def guidanceLines (frontend_dir : String) : List String :=
  ["\n" ++ eqBanner, "Setup Complete!", eqBanner,
   "\nNext steps:",
   "  cd " ++ frontend_dir,
   "  npm run dev        # Start development server",
   "  npm run build      # Build for production",
   "\nOr use this script:",
   "  python build-frontend.py --dev     # Start dev server",
   "  python build-frontend.py --build   # Production build"]

/-- The command-line flags of the script (lines 164-188). -/
structure Args where
  build : Bool
  dev : Bool
  skip_wasm : Bool
  skip_install : Bool
deriving DecidableEq, Repr

/-- main (lines 151-233): prerequisite check, banner, conditional wasm build,
conditional dependency install, then by flag priority the production build,
the development server, or the manual guidance.  script_dir stands for the
resolved directory of the script; project_root equals it. -/
def main (windows : Bool) (script_dir : String) (args : Args) (w : World) :
    Log × Termination :=
  let project_root := script_dir
  let frontend_dir := pathJoin project_root "frontend"
  let r0 := check_prerequisites windows w
  match r0.2 with
  | some t => (r0.1, t)
  | none =>
    let l0 := r0.1.append
      ⟨["\n" ++ eqBanner, "Wikitext Simplified Frontend Build", eqBanner,
        "Project root: " ++ project_root,
        "Frontend dir: " ++ frontend_dir], [], []⟩
    let r1 :=
      if !args.skip_wasm then build_wasm windows w project_root
      else (⟨["\nSkipping WASM build (--skip-wasm)"], [], []⟩, none)
    match r1.2 with
    | some t => (l0.append r1.1, t)
    | none =>
      let l1 := l0.append r1.1
      let r2 :=
        if !args.skip_install then install_dependencies windows w frontend_dir
        else (⟨["\nSkipping dependency installation (--skip-install)"], [], []⟩, none)
      match r2.2 with
      | some t => (l1.append r2.1, t)
      | none =>
        let l2 := l1.append r2.1
        if args.build then
          let r3 := build_frontend windows w frontend_dir
          match r3.2 with
          | some t => (l2.append r3.1, t)
          | none =>
            (l2.append (r3.1.append ⟨buildCompleteLines frontend_dir, [], []⟩),
             Termination.exit 0)
        else if args.dev then
          let r3 := dev_server windows w frontend_dir
          match r3.2 with
          | some t => (l2.append r3.1, t)
          | none => (l2.append r3.1, Termination.exit 0)
        else
          (l2.append ⟨guidanceLines frontend_dir, [], []⟩, Termination.exit 0)

/-- The argument vectors of the step invocations (the invocations made without
output capture), in order: the external build steps as opposed to the
version checks. -/
def steps (l : Log) : List (List String) :=
  (l.invocations.filter (fun i => !i.capture)).map (fun i => i.argv)

/-- All version checks pass: each prerequisite tool exits zero. -/
def prereqOK (w : World) : Prop :=
  ∀ p ∈ prereqTools, w.exec (versionArgv p.2) = CmdResult.exited 0

instance (w : World) : Decidable (prereqOK w) := by
  unfold prereqOK; infer_instance

/-- A world in which no external command exists at all: every invocation
raises FileNotFoundError. -/
def worldAllMissing : World := ⟨fun _ => CmdResult.notFound, false⟩

/-- A world in which every external command exits zero and the operator never
interrupts. -/
def worldAllOk : World := ⟨fun _ => CmdResult.exited 0, false⟩

def devMatch (r : CmdResult) : Termination :=
  match r with
  | CmdResult.exited 0 => Termination.exit 0
  | CmdResult.exited c => Termination.uncaughtCPE c
  | CmdResult.notFound => Termination.uncaughtFNF "npm"

def runInvs (windows : Bool) (root : String) (args : Args) (w : World) :
    List Invocation :=
  prereqInvs windows ++
  if prereqOK w then
    (if args.skip_wasm then [] else [⟨wasmArgv root, some root, windows, false⟩]) ++
    (if args.skip_wasm = false ∧ w.exec (wasmArgv root) ≠ CmdResult.exited 0 then []
     else
      (if args.skip_install then []
       else [⟨["npm", "install"], some (pathJoin root "frontend"), windows, false⟩]) ++
      (if args.skip_install = false ∧ w.exec ["npm", "install"] ≠ CmdResult.exited 0 then []
       else
        if args.build then
          [⟨["npm", "run", "build"], some (pathJoin root "frontend"), windows, false⟩]
        else if args.dev then
          [⟨["npm", "run", "dev"], some (pathJoin root "frontend"), windows, false⟩]
        else []))
  else []

def runTerm (root : String) (args : Args) (w : World) : Termination :=
  if prereqOK w then
    if args.skip_wasm = false ∧ w.exec (wasmArgv root) ≠ CmdResult.exited 0 then
      Termination.exit 1
    else if args.skip_install = false ∧ w.exec ["npm", "install"] ≠ CmdResult.exited 0 then
      Termination.exit 1
    else if args.build then
      (if w.exec ["npm", "run", "build"] = CmdResult.exited 0 then Termination.exit 0
       else Termination.exit 1)
    else if args.dev then
      (if w.devInterrupt then Termination.exit 0
       else devMatch (w.exec ["npm", "run", "dev"]))
    else Termination.exit 0
  else Termination.exit 1

/-- A world where the wasm-pack build command exits with status 2 and every
other command exits zero. -/
def worldWasmFails2 (root : String) : World :=
  ⟨fun c => if c = wasmArgv root then CmdResult.exited 2 else CmdResult.exited 0, false⟩

/-- Modelled from the spec: a dev-server step that performs its invocation
through the step runner (run_command), as section 4.1 of the spec describes
(the source dev_server instead calls the subprocess directly and catches only
the interrupt).  Used to compare the spec reading with the code. -/
def dev_server_viaStepRunner (windows : Bool) (w : World) (frontend_dir : String) :
    Log × Option Termination :=
  let hdr : Log :=
    ⟨["\n" ++ eqBanner, "Starting Development Server", eqBanner,
      "\nPress Ctrl+C to stop the server\n"], [], []⟩
  if w.devInterrupt then
    (hdr.append ⟨["\n\nDevelopment server stopped."], [],
      [⟨["npm", "run", "dev"], some frontend_dir, windows, false⟩]⟩, none)
  else
    let r := run_command windows w ["npm", "run", "dev"] (some frontend_dir) none
    (hdr.append r.1, r.2)

/-- A world where npm run dev exits with status 2, every other command exits
zero, and the operator does not interrupt. -/
def worldDevFails2 : World :=
  ⟨fun c => if c = ["npm", "run", "dev"] then CmdResult.exited 2
            else CmdResult.exited 0, false⟩

/-- A world where every command exits zero and the operator interrupts the
development server. -/
def worldDevInterrupt : World := ⟨fun _ => CmdResult.exited 0, true⟩

/-- The argument vectors of the steps a configuration plans, in order (the
steps main would run if nothing fails). -/
def plannedSteps (root : String) (args : Args) : List (List String) :=
  (if args.skip_wasm then [] else [wasmArgv root]) ++
  (if args.skip_install then [] else [["npm", "install"]]) ++
  (if args.build then [["npm", "run", "build"]]
   else if args.dev then [["npm", "run", "dev"]] else [])

/-- A planned step goes well: its command exits zero, or it is the dev-server
command and the operator stops it with an interrupt. -/
def stepOK (w : World) (c : List String) : Prop :=
  w.exec c = CmdResult.exited 0 ∨ (c = ["npm", "run", "dev"] ∧ w.devInterrupt = true)

/-- A run succeeds: the prerequisite checks pass and every planned step goes
well (including the graceful dev-server stop). -/
def runSucceeds (root : String) (args : Args) (w : World) : Prop :=
  prereqOK w ∧ ∀ c ∈ plannedSteps root args, stepOK w c

/-- Every command the orchestrator can ever run: the two version checks and
the four step commands. -/
def relevantCmds (root : String) : List (List String) :=
  [["wasm-pack", "--version"], ["npm", "--version"], wasmArgv root,
   ["npm", "install"], ["npm", "run", "build"], ["npm", "run", "dev"]]

/-- A world like worldAllOk on the commands the orchestrator can run, but
with a different behaviour on an unrelated command. -/
def worldOkElsewhereDiff : World :=
  ⟨fun c => if c = ["git", "--version"] then CmdResult.notFound
            else CmdResult.exited 0, false⟩

/-- An invocation with its shell flag cleared, to compare invocation
sequences across platforms. -/
def Invocation.noShell (i : Invocation) : Invocation := ⟨i.argv, i.cwd, false, i.capture⟩

/-! Helper lemmas: the version-check argument vectors, and the value of each
step function once the result of its external command is fixed. -/
theorem versionArgv_wasm : versionArgv "wasm-pack --version" = ["wasm-pack", "--version"] := by
  decide

theorem versionArgv_npm : versionArgv "npm --version" = ["npm", "--version"] := by
  decide

theorem prereqOK_iff (w : World) :
    prereqOK w ↔
      (w.exec ["wasm-pack", "--version"] = CmdResult.exited 0 ∧
       w.exec ["npm", "--version"] = CmdResult.exited 0) := by
  simp [prereqOK, prereqTools, versionArgv_wasm, versionArgv_npm]

theorem check_prerequisites_ok (windows : Bool) (w : World) (h : prereqOK w) :
    check_prerequisites windows w = (⟨[], [], prereqInvs windows⟩, none) := by
  rw [prereqOK_iff] at h
  simp [check_prerequisites, prereqTools, versionArgv_wasm, versionArgv_npm,
    h.1, h.2]

theorem run_command_eq_ok (windows : Bool) (w : World) (cmd : List String)
    (cwd : Option String) (d : Option String)
    (h : w.exec cmd = CmdResult.exited 0) :
    run_command windows w cmd cwd d =
      (⟨descLines d ++ ["$ " ++ String.intercalate " " cmd], [],
        [⟨cmd, cwd, windows, false⟩]⟩, none) := by
  simp [run_command, h]

theorem run_command_eq_fail (windows : Bool) (w : World) (cmd : List String)
    (cwd : Option String) (d : Option String) (c : Nat)
    (h : w.exec cmd = CmdResult.exited c) (hc : c ≠ 0) :
    run_command windows w cmd cwd d =
      (⟨descLines d ++ ["$ " ++ String.intercalate " " cmd],
        ["Error: Command failed with exit code " ++ toString c],
        [⟨cmd, cwd, windows, false⟩]⟩,
       some (Termination.exit 1)) := by
  simp [run_command, h, hc]

theorem run_command_eq_notFound (windows : Bool) (w : World) (cmd : List String)
    (cwd : Option String) (d : Option String)
    (h : w.exec cmd = CmdResult.notFound) :
    run_command windows w cmd cwd d =
      (⟨descLines d ++ ["$ " ++ String.intercalate " " cmd],
        ["Error: Command not found: " ++ cmd.headD "",
         "Make sure " ++ cmd.headD "" ++ " is installed and in your PATH"],
        [⟨cmd, cwd, windows, false⟩]⟩,
       some (Termination.exit 1)) := by
  simp [run_command, h]

/-- Claim C9: the fixed prerequisite set is exactly wasm-pack and npm, each
checked by running the tool with the version flag with output captured, and
the check passes (returns without terminating) exactly when both version
checks exit zero; when it does not pass it terminates via sys.exit(1). -/
theorem claim_C9 (windows : Bool) (w : World) :
    (check_prerequisites windows w).1.invocations =
      [⟨["wasm-pack", "--version"], none, windows, true⟩,
       ⟨["npm", "--version"], none, windows, true⟩] ∧
    ((check_prerequisites windows w).2 = none ↔
      (w.exec ["wasm-pack", "--version"] = CmdResult.exited 0 ∧
       w.exec ["npm", "--version"] = CmdResult.exited 0)) ∧
    ((check_prerequisites windows w).2 = none ∨
     (check_prerequisites windows w).2 = some (Termination.exit 1)) := by
  by_cases h1 : w.exec ["wasm-pack", "--version"] = CmdResult.exited 0 <;>
    by_cases h2 : w.exec ["npm", "--version"] = CmdResult.exited 0 <;>
    simp [check_prerequisites, prereqTools, prereqInvs, versionArgv_wasm,
      versionArgv_npm, h1, h2]

/-- Claim C1: when at least one prerequisite version check fails, the run
prints the name of every failing tool to stderr, ends with exit status 1, and
the only subprocess invocations are the two captured version checks: no build
step runs. -/
theorem claim_C1 (windows : Bool) (root : String) (args : Args) (w : World)
    (h : ¬ prereqOK w) :
    exitStatus (main windows root args w).2 = 1 ∧
    (∀ p ∈ prereqTools, w.exec (versionArgv p.2) ≠ CmdResult.exited 0 →
      ("  - " ++ p.1) ∈ (main windows root args w).1.err) ∧
    (main windows root args w).1.invocations = prereqInvs windows ∧
    steps (main windows root args w).1 = [] := by
  rw [prereqOK_iff] at h
  by_cases h1 : w.exec ["wasm-pack", "--version"] = CmdResult.exited 0 <;>
    by_cases h2 : w.exec ["npm", "--version"] = CmdResult.exited 0 <;>
    simp [main, check_prerequisites, prereqTools, prereqInvs, versionArgv_wasm,
      versionArgv_npm, h1, h2, exitStatus, steps] at h ⊢

theorem claim_C1_witness :
    (¬ prereqOK worldAllMissing) ∧
    (exitStatus (main false "/repo" ⟨false, false, false, false⟩ worldAllMissing).2 = 1 ∧
     (∀ p ∈ prereqTools,
        worldAllMissing.exec (versionArgv p.2) ≠ CmdResult.exited 0 →
        ("  - " ++ p.1) ∈
          (main false "/repo" ⟨false, false, false, false⟩ worldAllMissing).1.err) ∧
     (main false "/repo" ⟨false, false, false, false⟩ worldAllMissing).1.invocations =
        prereqInvs false ∧
     steps (main false "/repo" ⟨false, false, false, false⟩ worldAllMissing).1 = []) :=
  ⟨by decide, claim_C1 false "/repo" ⟨false, false, false, false⟩ worldAllMissing (by decide)⟩

theorem run_command_invs (windows : Bool) (w : World) (cmd : List String)
    (cwd : Option String) (d : Option String) :
    (run_command windows w cmd cwd d).1.invocations = [⟨cmd, cwd, windows, false⟩] := by
  simp only [run_command]
  rcases h : w.exec cmd with c | _
  · by_cases hc : c = 0 <;> simp [hc]
  · simp

theorem run_command_snd (windows : Bool) (w : World) (cmd : List String)
    (cwd : Option String) (d : Option String) :
    (run_command windows w cmd cwd d).2 =
      if w.exec cmd = CmdResult.exited 0 then none else some (Termination.exit 1) := by
  rcases h : w.exec cmd with c | _
  · by_cases hc : c = 0
    · subst hc; simp [run_command, h]
    · simp [run_command, h, hc]
  · simp [run_command, h]

theorem check_prerequisites_invs (windows : Bool) (w : World) :
    (check_prerequisites windows w).1.invocations = prereqInvs windows := by
  simp only [check_prerequisites]
  split <;> rfl

theorem check_prerequisites_snd (windows : Bool) (w : World) :
    (check_prerequisites windows w).2 =
      if prereqOK w then none else some (Termination.exit 1) := by
  by_cases h : prereqOK w
  · simp [check_prerequisites_ok windows w h, h]
  · have h2 := h
    rw [prereqOK_iff] at h2
    by_cases h1 : w.exec ["wasm-pack", "--version"] = CmdResult.exited 0 <;>
      by_cases h3 : w.exec ["npm", "--version"] = CmdResult.exited 0 <;>
      simp [check_prerequisites, prereqTools, versionArgv_wasm, versionArgv_npm,
        h, h1, h3]
    all_goals tauto

theorem build_wasm_invs (windows : Bool) (w : World) (root : String) :
    (build_wasm windows w root).1.invocations =
      [⟨wasmArgv root, some root, windows, false⟩] := by
  simp only [build_wasm]
  rcases h : (run_command windows w (wasmArgv root) (some root)
      (some "Building WASM module with wasm-pack")).2 with _ | t <;>
    simp [h, Log.append, run_command_invs]

theorem build_wasm_snd (windows : Bool) (w : World) (root : String) :
    (build_wasm windows w root).2 =
      if w.exec (wasmArgv root) = CmdResult.exited 0 then none
      else some (Termination.exit 1) := by
  simp only [build_wasm]
  rw [← run_command_snd windows w (wasmArgv root) (some root)
      (some "Building WASM module with wasm-pack")]
  rcases h : (run_command windows w (wasmArgv root) (some root)
      (some "Building WASM module with wasm-pack")).2 with _ | t <;> simp [h]

theorem install_dependencies_invs (windows : Bool) (w : World) (fd : String) :
    (install_dependencies windows w fd).1.invocations =
      [⟨["npm", "install"], some fd, windows, false⟩] := by
  simp only [install_dependencies]
  rcases h : (run_command windows w ["npm", "install"] (some fd)
      (some "Installing npm packages")).2 with _ | t <;>
    simp [h, Log.append, run_command_invs]

theorem install_dependencies_snd (windows : Bool) (w : World) (fd : String) :
    (install_dependencies windows w fd).2 =
      if w.exec ["npm", "install"] = CmdResult.exited 0 then none
      else some (Termination.exit 1) := by
  simp only [install_dependencies]
  rw [← run_command_snd windows w ["npm", "install"] (some fd)
      (some "Installing npm packages")]
  rcases h : (run_command windows w ["npm", "install"] (some fd)
      (some "Installing npm packages")).2 with _ | t <;> simp [h]

theorem build_frontend_invs (windows : Bool) (w : World) (fd : String) :
    (build_frontend windows w fd).1.invocations =
      [⟨["npm", "run", "build"], some fd, windows, false⟩] := by
  simp only [build_frontend]
  rcases h : (run_command windows w ["npm", "run", "build"] (some fd)
      (some "Building production bundle")).2 with _ | t <;>
    simp [h, Log.append, run_command_invs]

theorem build_frontend_snd (windows : Bool) (w : World) (fd : String) :
    (build_frontend windows w fd).2 =
      if w.exec ["npm", "run", "build"] = CmdResult.exited 0 then none
      else some (Termination.exit 1) := by
  simp only [build_frontend]
  rw [← run_command_snd windows w ["npm", "run", "build"] (some fd)
      (some "Building production bundle")]
  rcases h : (run_command windows w ["npm", "run", "build"] (some fd)
      (some "Building production bundle")).2 with _ | t <;> simp [h]

theorem dev_server_invs (windows : Bool) (w : World) (fd : String) :
    (dev_server windows w fd).1.invocations =
      [⟨["npm", "run", "dev"], some fd, windows, false⟩] := by
  simp only [dev_server]
  by_cases hi : w.devInterrupt
  · simp [hi]
  · rcases h : w.exec ["npm", "run", "dev"] with c | _
    · by_cases hc : c = 0 <;> simp [hi, h, hc]
    · simp [hi, h]

theorem dev_server_interrupt (windows : Bool) (w : World) (fd : String)
    (hi : w.devInterrupt = true) :
    dev_server windows w fd =
      (⟨["\n" ++ eqBanner, "Starting Development Server", eqBanner,
         "\nPress Ctrl+C to stop the server\n", "\n\nDevelopment server stopped."], [],
        [⟨["npm", "run", "dev"], some fd, windows, false⟩]⟩, none) := by
  simp [dev_server, hi]

/-- Claim C5: with the wasm and install steps skipped and neither build nor
dev requested (and the prerequisite checks passing), no external command is
invoked beyond the two version checks, the process ends with sys.exit-free
status 0, and every line of the manual guidance text is printed. -/
theorem claim_C5 (windows : Bool) (root : String) (w : World)
    (hpre : prereqOK w) :
    steps (main windows root ⟨false, false, true, true⟩ w).1 = [] ∧
    (main windows root ⟨false, false, true, true⟩ w).1.invocations = prereqInvs windows ∧
    (main windows root ⟨false, false, true, true⟩ w).2 = Termination.exit 0 ∧
    (∀ s ∈ guidanceLines (pathJoin root "frontend"),
      s ∈ (main windows root ⟨false, false, true, true⟩ w).1.out) := by
  simp [main, check_prerequisites_ok windows w hpre, Log.append, steps,
    prereqInvs, prereqTools, versionArgv_wasm, versionArgv_npm, guidanceLines]

theorem claim_C5_witness :
    prereqOK worldAllOk ∧
    (steps (main false "/repo" ⟨false, false, true, true⟩ worldAllOk).1 = [] ∧
     (main false "/repo" ⟨false, false, true, true⟩ worldAllOk).1.invocations =
       prereqInvs false ∧
     (main false "/repo" ⟨false, false, true, true⟩ worldAllOk).2 = Termination.exit 0 ∧
     (∀ s ∈ guidanceLines (pathJoin "/repo" "frontend"),
       s ∈ (main false "/repo" ⟨false, false, true, true⟩ worldAllOk).1.out)) :=
  ⟨by decide, claim_C5 false "/repo" worldAllOk (by decide)⟩

theorem dev_server_snd (windows : Bool) (w : World) (fd : String) :
    (dev_server windows w fd).2 =
      if w.devInterrupt then none
      else
        match w.exec ["npm", "run", "dev"] with
        | CmdResult.exited 0 => none
        | CmdResult.exited c => some (Termination.uncaughtCPE c)
        | CmdResult.notFound => some (Termination.uncaughtFNF "npm") := by
  simp only [dev_server]
  by_cases hi : w.devInterrupt
  · simp [hi]
  · rcases h : w.exec ["npm", "run", "dev"] with (_ | c) | _ <;> simp [hi, h]

set_option maxHeartbeats 1000000 in
theorem main_char (windows : Bool) (root : String) (args : Args) (w : World) :
    (main windows root args w).1.invocations = runInvs windows root args w ∧
    (main windows root args w).2 = runTerm root args w := by
  rcases args with ⟨b, d, sw, si⟩
  by_cases hpre : prereqOK w
  case neg =>
    simp [main, check_prerequisites_snd, check_prerequisites_invs, hpre,
      runInvs, runTerm]
  case pos =>
    cases sw with
    | false =>
      rcases hwasm : w.exec (wasmArgv root) with cw | _
      · by_cases hcw : cw = 0
        · subst hcw
          cases si with
          | false =>
            rcases hinst : w.exec ["npm", "install"] with ci | _
            · by_cases hci : ci = 0
              · subst hci
                cases b with
                | true =>
                  rcases hbld : w.exec ["npm", "run", "build"] with cb | _
                  · by_cases hcb : cb = 0
                    · subst hcb
                      simp_all [main, check_prerequisites_snd, check_prerequisites_invs,
                        build_wasm_snd, build_wasm_invs, install_dependencies_snd,
                        install_dependencies_invs, build_frontend_snd, build_frontend_invs,
                        dev_server_snd, dev_server_invs, Log.append, runInvs, runTerm, devMatch]
                    · simp_all [main, check_prerequisites_snd, check_prerequisites_invs,
                        build_wasm_snd, build_wasm_invs, install_dependencies_snd,
                        install_dependencies_invs, build_frontend_snd, build_frontend_invs,
                        dev_server_snd, dev_server_invs, Log.append, runInvs, runTerm, devMatch]
                  · simp_all [main, check_prerequisites_snd, check_prerequisites_invs,
                      build_wasm_snd, build_wasm_invs, install_dependencies_snd,
                      install_dependencies_invs, build_frontend_snd, build_frontend_invs,
                      dev_server_snd, dev_server_invs, Log.append, runInvs, runTerm, devMatch]
                | false =>
                  cases d with
                  | true =>
                    by_cases hint : w.devInterrupt
                    · simp_all [main, check_prerequisites_snd, check_prerequisites_invs,
                        build_wasm_snd, build_wasm_invs, install_dependencies_snd,
                        install_dependencies_invs, build_frontend_snd, build_frontend_invs,
                        dev_server_snd, dev_server_invs, Log.append, runInvs, runTerm, devMatch]
                    · rcases hdev : w.exec ["npm", "run", "dev"] with (_ | cd) | _ <;>
                        simp_all [main, check_prerequisites_snd, check_prerequisites_invs,
                          build_wasm_snd, build_wasm_invs, install_dependencies_snd,
                          install_dependencies_invs, build_frontend_snd, build_frontend_invs,
                          dev_server_snd, dev_server_invs, Log.append, runInvs, runTerm, devMatch]
                  | false =>
                    simp_all [main, check_prerequisites_snd, check_prerequisites_invs,
                      build_wasm_snd, build_wasm_invs, install_dependencies_snd,
                      install_dependencies_invs, build_frontend_snd, build_frontend_invs,
                      dev_server_snd, dev_server_invs, Log.append, runInvs, runTerm, devMatch]
              · simp_all [main, check_prerequisites_snd, check_prerequisites_invs,
                  build_wasm_snd, build_wasm_invs, install_dependencies_snd,
                  install_dependencies_invs, build_frontend_snd, build_frontend_invs,
                  dev_server_snd, dev_server_invs, Log.append, runInvs, runTerm, devMatch]
            · simp_all [main, check_prerequisites_snd, check_prerequisites_invs,
                build_wasm_snd, build_wasm_invs, install_dependencies_snd,
                install_dependencies_invs, build_frontend_snd, build_frontend_invs,
                dev_server_snd, dev_server_invs, Log.append, runInvs, runTerm, devMatch]
          | true =>
            cases b with
            | true =>
              rcases hbld : w.exec ["npm", "run", "build"] with cb | _
              · by_cases hcb : cb = 0
                · subst hcb
                  simp_all [main, check_prerequisites_snd, check_prerequisites_invs,
                    build_wasm_snd, build_wasm_invs, install_dependencies_snd,
                    install_dependencies_invs, build_frontend_snd, build_frontend_invs,
                    dev_server_snd, dev_server_invs, Log.append, runInvs, runTerm, devMatch]
                · simp_all [main, check_prerequisites_snd, check_prerequisites_invs,
                    build_wasm_snd, build_wasm_invs, install_dependencies_snd,
                    install_dependencies_invs, build_frontend_snd, build_frontend_invs,
                    dev_server_snd, dev_server_invs, Log.append, runInvs, runTerm, devMatch]
              · simp_all [main, check_prerequisites_snd, check_prerequisites_invs,
                  build_wasm_snd, build_wasm_invs, install_dependencies_snd,
                  install_dependencies_invs, build_frontend_snd, build_frontend_invs,
                  dev_server_snd, dev_server_invs, Log.append, runInvs, runTerm, devMatch]
            | false =>
              cases d with
              | true =>
                by_cases hint : w.devInterrupt
                · simp_all [main, check_prerequisites_snd, check_prerequisites_invs,
                    build_wasm_snd, build_wasm_invs, install_dependencies_snd,
                    install_dependencies_invs, build_frontend_snd, build_frontend_invs,
                    dev_server_snd, dev_server_invs, Log.append, runInvs, runTerm, devMatch]
                · rcases hdev : w.exec ["npm", "run", "dev"] with (_ | cd) | _ <;>
                    simp_all [main, check_prerequisites_snd, check_prerequisites_invs,
                      build_wasm_snd, build_wasm_invs, install_dependencies_snd,
                      install_dependencies_invs, build_frontend_snd, build_frontend_invs,
                      dev_server_snd, dev_server_invs, Log.append, runInvs, runTerm, devMatch]
              | false =>
                simp_all [main, check_prerequisites_snd, check_prerequisites_invs,
                  build_wasm_snd, build_wasm_invs, install_dependencies_snd,
                  install_dependencies_invs, build_frontend_snd, build_frontend_invs,
                  dev_server_snd, dev_server_invs, Log.append, runInvs, runTerm, devMatch]
        · simp_all [main, check_prerequisites_snd, check_prerequisites_invs,
            build_wasm_snd, build_wasm_invs, install_dependencies_snd,
            install_dependencies_invs, build_frontend_snd, build_frontend_invs,
            dev_server_snd, dev_server_invs, Log.append, runInvs, runTerm, devMatch]
      · simp_all [main, check_prerequisites_snd, check_prerequisites_invs,
          build_wasm_snd, build_wasm_invs, install_dependencies_snd,
          install_dependencies_invs, build_frontend_snd, build_frontend_invs,
          dev_server_snd, dev_server_invs, Log.append, runInvs, runTerm, devMatch]
    | true =>
      cases si with
      | false =>
        rcases hinst : w.exec ["npm", "install"] with ci | _
        · by_cases hci : ci = 0
          · subst hci
            cases b with
            | true =>
              rcases hbld : w.exec ["npm", "run", "build"] with cb | _
              · by_cases hcb : cb = 0
                · subst hcb
                  simp_all [main, check_prerequisites_snd, check_prerequisites_invs,
                    build_wasm_snd, build_wasm_invs, install_dependencies_snd,
                    install_dependencies_invs, build_frontend_snd, build_frontend_invs,
                    dev_server_snd, dev_server_invs, Log.append, runInvs, runTerm, devMatch]
                · simp_all [main, check_prerequisites_snd, check_prerequisites_invs,
                    build_wasm_snd, build_wasm_invs, install_dependencies_snd,
                    install_dependencies_invs, build_frontend_snd, build_frontend_invs,
                    dev_server_snd, dev_server_invs, Log.append, runInvs, runTerm, devMatch]
              · simp_all [main, check_prerequisites_snd, check_prerequisites_invs,
                  build_wasm_snd, build_wasm_invs, install_dependencies_snd,
                  install_dependencies_invs, build_frontend_snd, build_frontend_invs,
                  dev_server_snd, dev_server_invs, Log.append, runInvs, runTerm, devMatch]
            | false =>
              cases d with
              | true =>
                by_cases hint : w.devInterrupt
                · simp_all [main, check_prerequisites_snd, check_prerequisites_invs,
                    build_wasm_snd, build_wasm_invs, install_dependencies_snd,
                    install_dependencies_invs, build_frontend_snd, build_frontend_invs,
                    dev_server_snd, dev_server_invs, Log.append, runInvs, runTerm, devMatch]
                · rcases hdev : w.exec ["npm", "run", "dev"] with (_ | cd) | _ <;>
                    simp_all [main, check_prerequisites_snd, check_prerequisites_invs,
                      build_wasm_snd, build_wasm_invs, install_dependencies_snd,
                      install_dependencies_invs, build_frontend_snd, build_frontend_invs,
                      dev_server_snd, dev_server_invs, Log.append, runInvs, runTerm, devMatch]
              | false =>
                simp_all [main, check_prerequisites_snd, check_prerequisites_invs,
                  build_wasm_snd, build_wasm_invs, install_dependencies_snd,
                  install_dependencies_invs, build_frontend_snd, build_frontend_invs,
                  dev_server_snd, dev_server_invs, Log.append, runInvs, runTerm, devMatch]
          · simp_all [main, check_prerequisites_snd, check_prerequisites_invs,
              build_wasm_snd, build_wasm_invs, install_dependencies_snd,
              install_dependencies_invs, build_frontend_snd, build_frontend_invs,
              dev_server_snd, dev_server_invs, Log.append, runInvs, runTerm, devMatch]
        · simp_all [main, check_prerequisites_snd, check_prerequisites_invs,
            build_wasm_snd, build_wasm_invs, install_dependencies_snd,
            install_dependencies_invs, build_frontend_snd, build_frontend_invs,
            dev_server_snd, dev_server_invs, Log.append, runInvs, runTerm, devMatch]
      | true =>
        cases b with
        | true =>
          rcases hbld : w.exec ["npm", "run", "build"] with cb | _
          · by_cases hcb : cb = 0
            · subst hcb
              simp_all [main, check_prerequisites_snd, check_prerequisites_invs,
                build_wasm_snd, build_wasm_invs, install_dependencies_snd,
                install_dependencies_invs, build_frontend_snd, build_frontend_invs,
                dev_server_snd, dev_server_invs, Log.append, runInvs, runTerm, devMatch]
            · simp_all [main, check_prerequisites_snd, check_prerequisites_invs,
                build_wasm_snd, build_wasm_invs, install_dependencies_snd,
                install_dependencies_invs, build_frontend_snd, build_frontend_invs,
                dev_server_snd, dev_server_invs, Log.append, runInvs, runTerm, devMatch]
          · simp_all [main, check_prerequisites_snd, check_prerequisites_invs,
              build_wasm_snd, build_wasm_invs, install_dependencies_snd,
              install_dependencies_invs, build_frontend_snd, build_frontend_invs,
              dev_server_snd, dev_server_invs, Log.append, runInvs, runTerm, devMatch]
        | false =>
          cases d with
          | true =>
            by_cases hint : w.devInterrupt
            · simp_all [main, check_prerequisites_snd, check_prerequisites_invs,
                build_wasm_snd, build_wasm_invs, install_dependencies_snd,
                install_dependencies_invs, build_frontend_snd, build_frontend_invs,
                dev_server_snd, dev_server_invs, Log.append, runInvs, runTerm, devMatch]
            · rcases hdev : w.exec ["npm", "run", "dev"] with (_ | cd) | _ <;>
                simp_all [main, check_prerequisites_snd, check_prerequisites_invs,
                  build_wasm_snd, build_wasm_invs, install_dependencies_snd,
                  install_dependencies_invs, build_frontend_snd, build_frontend_invs,
                  dev_server_snd, dev_server_invs, Log.append, runInvs, runTerm, devMatch]
          | false =>
            simp_all [main, check_prerequisites_snd, check_prerequisites_invs,
              build_wasm_snd, build_wasm_invs, install_dependencies_snd,
              install_dependencies_invs, build_frontend_snd, build_frontend_invs,
              dev_server_snd, dev_server_invs, Log.append, runInvs, runTerm, devMatch]

/-- Claim C2: the step runner turns any non-zero exit into a printed exit-code
diagnostic and sys.exit(1), and a missing executable into a distinct
diagnostic naming it and sys.exit(1); hence when the wasm step exits 2 the
whole run ends with status 1, the exit code is printed, and no later step is
invoked. -/
theorem claim_C2 (windows : Bool) (root : String) (args : Args) (w : World) :
    (∀ cmd cwd d c, w.exec cmd = CmdResult.exited c → c ≠ 0 →
      (run_command windows w cmd cwd d).2 = some (Termination.exit 1) ∧
      ("Error: Command failed with exit code " ++ toString c) ∈
        (run_command windows w cmd cwd d).1.err) ∧
    (∀ cmd cwd d, w.exec cmd = CmdResult.notFound →
      (run_command windows w cmd cwd d).2 = some (Termination.exit 1) ∧
      ("Error: Command not found: " ++ cmd.headD "") ∈
        (run_command windows w cmd cwd d).1.err) ∧
    (prereqOK w → args.skip_wasm = false → w.exec (wasmArgv root) = CmdResult.exited 2 →
      exitStatus (main windows root args w).2 = 1 ∧
      ("Error: Command failed with exit code " ++ toString 2) ∈
        (main windows root args w).1.err ∧
      steps (main windows root args w).1 = [wasmArgv root]) := by
  refine ⟨?_, ?_, ?_⟩
  · intro cmd cwd d c h hc
    rw [run_command_eq_fail windows w cmd cwd d c h hc]
    simp
  · intro cmd cwd d h
    rw [run_command_eq_notFound windows w cmd cwd d h]
    simp
  · intro hpre hsw hwasm
    obtain ⟨hinv, hterm⟩ := main_char windows root args w
    refine ⟨?_, ?_, ?_⟩
    · rw [hterm]
      simp [runTerm, hpre, hsw, hwasm, exitStatus]
    · simp [main, check_prerequisites_ok windows w hpre, hsw, build_wasm,
        run_command_eq_fail windows w (wasmArgv root) (some root)
          (some "Building WASM module with wasm-pack") 2 hwasm (by decide),
        Log.append]
    · simp only [steps, hinv]
      simp [runInvs, hpre, hsw, hwasm, prereqInvs, prereqTools]

theorem claim_C2_witness :
    (prereqOK (worldWasmFails2 "/repo") ∧
     (worldWasmFails2 "/repo").exec (wasmArgv "/repo") = CmdResult.exited 2) ∧
    (exitStatus (main false "/repo" ⟨true, false, false, false⟩ (worldWasmFails2 "/repo")).2 = 1 ∧
     ("Error: Command failed with exit code " ++ toString 2) ∈
       (main false "/repo" ⟨true, false, false, false⟩ (worldWasmFails2 "/repo")).1.err ∧
     steps (main false "/repo" ⟨true, false, false, false⟩ (worldWasmFails2 "/repo")).1 =
       [wasmArgv "/repo"]) :=
  ⟨⟨by decide, by decide⟩,
   (claim_C2 false "/repo" ⟨true, false, false, false⟩ (worldWasmFails2 "/repo")).2.2
     (by decide) rfl (by decide)⟩

/-- Claim C3: with the build flag set, the dev-server command is never
invoked, whatever the flags and the external tools do; and when the earlier
steps pass or are skipped, the invocation sequence is exactly the two version
checks, the wasm build unless skipped, the install unless skipped, and the
production build, in that order. -/
theorem claim_C3 (windows : Bool) (root : String) (args : Args) (w : World)
    (hb : args.build = true) :
    ["npm", "run", "dev"] ∉ steps (main windows root args w).1 ∧
    (prereqOK w →
     (args.skip_wasm = true ∨ w.exec (wasmArgv root) = CmdResult.exited 0) →
     (args.skip_install = true ∨ w.exec ["npm", "install"] = CmdResult.exited 0) →
     (main windows root args w).1.invocations =
       prereqInvs windows ++
       ((if args.skip_wasm then [] else [⟨wasmArgv root, some root, windows, false⟩]) ++
        ((if args.skip_install then []
          else [⟨["npm", "install"], some (pathJoin root "frontend"), windows, false⟩]) ++
         [⟨["npm", "run", "build"], some (pathJoin root "frontend"), windows, false⟩]))) := by
  rcases args with ⟨b, d, sw, si⟩
  obtain rfl : b = true := hb
  obtain ⟨hinv, hterm⟩ := main_char windows root ⟨true, d, sw, si⟩ w
  constructor
  · intro hc
    simp only [steps, hinv, runInvs] at hc
    split_ifs at hc <;>
      simp_all [prereqInvs, prereqTools, versionArgv_wasm, versionArgv_npm, wasmArgv]
  · intro hpre hw hi
    cases sw <;> cases si <;> rcases hw with h7 | h7 <;> rcases hi with h8 | h8 <;>
      simp_all [hinv, runInvs, prereqInvs, prereqTools]

theorem claim_C3_witness :
    ((⟨true, false, false, false⟩ : Args).build = true) ∧
    (["npm", "run", "dev"] ∉ steps (main false "/repo" ⟨true, false, false, false⟩ worldAllOk).1 ∧
     (prereqOK worldAllOk →
      ((⟨true, false, false, false⟩ : Args).skip_wasm = true ∨
        worldAllOk.exec (wasmArgv "/repo") = CmdResult.exited 0) →
      ((⟨true, false, false, false⟩ : Args).skip_install = true ∨
        worldAllOk.exec ["npm", "install"] = CmdResult.exited 0) →
      (main false "/repo" ⟨true, false, false, false⟩ worldAllOk).1.invocations =
        prereqInvs false ++
        ((if (⟨true, false, false, false⟩ : Args).skip_wasm then []
          else [⟨wasmArgv "/repo", some "/repo", false, false⟩]) ++
         ((if (⟨true, false, false, false⟩ : Args).skip_install then []
           else [⟨["npm", "install"], some (pathJoin "/repo" "frontend"), false, false⟩]) ++
          [⟨["npm", "run", "build"], some (pathJoin "/repo" "frontend"), false, false⟩])))) :=
  ⟨rfl, claim_C3 false "/repo" ⟨true, false, false, false⟩ worldAllOk rfl⟩

/-- Counterexample to claim C4 as stated: the dev-server invocation is not
performed via the step runner.  With the dev command exiting 2 and no
interrupt, the code propagates an uncaught CalledProcessError (stderr stays
empty and the termination is not sys.exit(1)), while the step-runner version
modelled from the spec would print the exit-code diagnostic and sys.exit(1). -/
theorem claim_C4_counterexample :
    worldDevFails2.devInterrupt = false ∧
    (dev_server false worldDevFails2 (pathJoin "/repo" "frontend")).2 =
      some (Termination.uncaughtCPE 2) ∧
    (dev_server false worldDevFails2 (pathJoin "/repo" "frontend")).1.err = [] ∧
    (dev_server_viaStepRunner false worldDevFails2 (pathJoin "/repo" "frontend")).2 =
      some (Termination.exit 1) ∧
    ("Error: Command failed with exit code " ++ toString 2) ∈
      (dev_server_viaStepRunner false worldDevFails2 (pathJoin "/repo" "frontend")).1.err ∧
    (main false "/repo" ⟨false, true, true, true⟩ worldDevFails2).2 ≠
      Termination.exit 1 := by
  decide

set_option maxHeartbeats 1000000 in
/-- Claim C4 (amended): with dev set and build not set, once the prerequisite
checks pass and the earlier steps pass or are skipped, the step sequence ends
with the dev-server invocation (made directly, not through the step runner),
and an operator interrupt during it is a normal successful stop: the stopped
message is printed and the process ends with sys.exit-free status 0. -/
theorem claim_C4 (windows : Bool) (root : String) (args : Args) (w : World)
    (hd : args.dev = true) (hb : args.build = false)
    (hpre : prereqOK w)
    (hw : args.skip_wasm = true ∨ w.exec (wasmArgv root) = CmdResult.exited 0)
    (hi : args.skip_install = true ∨ w.exec ["npm", "install"] = CmdResult.exited 0)
    (hint : w.devInterrupt = true) :
    steps (main windows root args w).1 =
      (if args.skip_wasm then [] else [wasmArgv root]) ++
      ((if args.skip_install then [] else [["npm", "install"]]) ++
       [["npm", "run", "dev"]]) ∧
    (main windows root args w).2 = Termination.exit 0 ∧
    "\n\nDevelopment server stopped." ∈ (main windows root args w).1.out := by
  rcases args with ⟨b, d, sw, si⟩
  obtain rfl : d = true := hd
  obtain rfl : b = false := hb
  obtain ⟨hinv, hterm⟩ := main_char windows root ⟨false, true, sw, si⟩ w
  refine ⟨?_, ?_, ?_⟩
  · simp only [steps, hinv, runInvs]
    cases sw <;> cases si <;> rcases hw with h7 | h7 <;> rcases hi with h8 | h8 <;>
      simp_all [prereqInvs, prereqTools, versionArgv_wasm, versionArgv_npm]
  · rw [hterm]
    clear hinv hterm
    cases sw <;> cases si <;> rcases hw with h7 | h7 <;> rcases hi with h8 | h8 <;>
      simp_all [runTerm, hint]
  · clear hinv hterm
    cases sw <;> cases si <;> rcases hw with h7 | h7 <;> rcases hi with h8 | h8 <;>
      simp_all [main, check_prerequisites_ok windows w hpre, build_wasm,
        install_dependencies, run_command,
        dev_server_interrupt windows w (pathJoin root "frontend") hint, Log.append]

theorem claim_C4_witness :
    steps (main false "/repo" ⟨false, true, false, false⟩ worldDevInterrupt).1 =
      [wasmArgv "/repo"] ++ ([["npm", "install"]] ++ [["npm", "run", "dev"]]) ∧
    (main false "/repo" ⟨false, true, false, false⟩ worldDevInterrupt).2 =
      Termination.exit 0 ∧
    "\n\nDevelopment server stopped." ∈
      (main false "/repo" ⟨false, true, false, false⟩ worldDevInterrupt).1.out :=
  claim_C4 false "/repo" ⟨false, true, false, false⟩ worldDevInterrupt rfl rfl
    (by decide) (Or.inr rfl) (Or.inr rfl) rfl

set_option maxHeartbeats 1000000 in
/-- Claim C10: the dev-server step bypasses the step runner.  In dev mode
with no operator interrupt, a non-zero exit of the dev command propagates as
an uncaught CalledProcessError and a missing executable as an uncaught
FileNotFoundError out of dev_server: the process still ends with a non-zero
status (1), but no step-runner diagnostic is printed — stderr stays empty. -/
theorem claim_C10 (windows : Bool) (root : String) (args : Args) (w : World)
    (hd : args.dev = true) (hb : args.build = false)
    (hpre : prereqOK w)
    (hw : args.skip_wasm = true ∨ w.exec (wasmArgv root) = CmdResult.exited 0)
    (hi : args.skip_install = true ∨ w.exec ["npm", "install"] = CmdResult.exited 0)
    (hint : w.devInterrupt = false) :
    (∀ c, w.exec ["npm", "run", "dev"] = CmdResult.exited c → c ≠ 0 →
      (main windows root args w).2 = Termination.uncaughtCPE c ∧
      exitStatus (main windows root args w).2 = 1 ∧
      (main windows root args w).1.err = []) ∧
    (w.exec ["npm", "run", "dev"] = CmdResult.notFound →
      (main windows root args w).2 = Termination.uncaughtFNF "npm" ∧
      exitStatus (main windows root args w).2 = 1 ∧
      (main windows root args w).1.err = []) := by
  rcases args with ⟨b, d, sw, si⟩
  obtain rfl : d = true := hd
  obtain rfl : b = false := hb
  obtain ⟨hinv, hterm⟩ := main_char windows root ⟨false, true, sw, si⟩ w
  constructor
  · intro c hdev hc
    rcases c with _ | c0
    · exact absurd rfl hc
    refine ⟨?_, ?_, ?_⟩
    · rw [hterm]
      clear hinv hterm
      cases sw <;> cases si <;> rcases hw with h7 | h7 <;> rcases hi with h8 | h8 <;>
        simp_all [runTerm, devMatch, hint]
    · rw [hterm]
      clear hinv hterm
      cases sw <;> cases si <;> rcases hw with h7 | h7 <;> rcases hi with h8 | h8 <;>
        simp_all [runTerm, devMatch, hint, exitStatus]
    · clear hinv hterm
      cases sw <;> cases si <;> rcases hw with h7 | h7 <;> rcases hi with h8 | h8 <;>
        simp_all [main, check_prerequisites_ok windows w hpre, build_wasm,
          install_dependencies, run_command, dev_server, hint, Log.append]
  · intro hdev
    refine ⟨?_, ?_, ?_⟩
    · rw [hterm]
      clear hinv hterm
      cases sw <;> cases si <;> rcases hw with h7 | h7 <;> rcases hi with h8 | h8 <;>
        simp_all [runTerm, devMatch, hint]
    · rw [hterm]
      clear hinv hterm
      cases sw <;> cases si <;> rcases hw with h7 | h7 <;> rcases hi with h8 | h8 <;>
        simp_all [runTerm, devMatch, hint, exitStatus]
    · clear hinv hterm
      cases sw <;> cases si <;> rcases hw with h7 | h7 <;> rcases hi with h8 | h8 <;>
        simp_all [main, check_prerequisites_ok windows w hpre, build_wasm,
          install_dependencies, run_command, dev_server, hint, Log.append]

theorem claim_C10_witness :
    (main false "/repo" ⟨false, true, true, true⟩ worldDevFails2).2 =
      Termination.uncaughtCPE 2 ∧
    exitStatus (main false "/repo" ⟨false, true, true, true⟩ worldDevFails2).2 = 1 ∧
    (main false "/repo" ⟨false, true, true, true⟩ worldDevFails2).1.err = [] :=
  (claim_C10 false "/repo" ⟨false, true, true, true⟩ worldDevFails2 rfl rfl
    (by decide) (Or.inl rfl) (Or.inl rfl) rfl).1 2 (by decide) (by decide)

theorem exitStatus_devMatch (r : CmdResult) :
    exitStatus (devMatch r) = if r = CmdResult.exited 0 then 0 else 1 := by
  rcases r with (_ | c) | _ <;> simp [devMatch, exitStatus]

set_option maxHeartbeats 2000000 in
/-- Claim C6: the exit status of every run is 0 or 1; it is 0 exactly when
the run succeeds (prerequisites pass and every planned step exits zero, or is
the dev server stopped by the operator), and 1 exactly otherwise (a missing
prerequisite, a non-zero exit, or a missing executable). -/
theorem claim_C6 (windows : Bool) (root : String) (args : Args) (w : World) :
    (exitStatus (main windows root args w).2 = 0 ∨
     exitStatus (main windows root args w).2 = 1) ∧
    (exitStatus (main windows root args w).2 = 0 ↔ runSucceeds root args w) ∧
    (exitStatus (main windows root args w).2 = 1 ↔ ¬ runSucceeds root args w) := by
  obtain ⟨-, hterm⟩ := main_char windows root args w
  rw [hterm]
  rcases args with ⟨b, d, sw, si⟩
  by_cases hpre : prereqOK w
  case neg => simp [runTerm, runSucceeds, hpre, exitStatus]
  case pos =>
    cases b with
    | true =>
      cases sw <;> cases si <;>
        by_cases hwa : w.exec (wasmArgv root) = CmdResult.exited 0 <;>
        by_cases hin : w.exec ["npm", "install"] = CmdResult.exited 0 <;>
        by_cases hbl : w.exec ["npm", "run", "build"] = CmdResult.exited 0 <;>
        simp_all [runTerm, runSucceeds, plannedSteps, stepOK, exitStatus, wasmArgv]
    | false =>
      cases d with
      | true =>
        cases sw <;> cases si <;>
          by_cases hwa : w.exec (wasmArgv root) = CmdResult.exited 0 <;>
          by_cases hin : w.exec ["npm", "install"] = CmdResult.exited 0 <;>
          by_cases hnt : w.devInterrupt = true <;>
          rcases hdv : w.exec ["npm", "run", "dev"] with (_ | cd) | _ <;>
          simp_all [runTerm, runSucceeds, plannedSteps, stepOK, exitStatus,
            exitStatus_devMatch, devMatch, wasmArgv]
      | false =>
        cases sw <;> cases si <;>
          by_cases hwa : w.exec (wasmArgv root) = CmdResult.exited 0 <;>
          by_cases hin : w.exec ["npm", "install"] = CmdResult.exited 0 <;>
          simp_all [runTerm, runSucceeds, plannedSteps, stepOK, exitStatus, wasmArgv]

/-- Claim C7: the run is a function of the flags and of the behaviour of the
external tools alone.  Two runs with the same flags whose worlds agree on
every command the orchestrator can run (and on the operator interrupt)
produce the same step sequence and the same exit status: no hidden state. -/
theorem claim_C7 (windows : Bool) (root : String) (args : Args) (w1 w2 : World)
    (hexec : ∀ c ∈ relevantCmds root, w1.exec c = w2.exec c)
    (hint : w1.devInterrupt = w2.devInterrupt) :
    steps (main windows root args w1).1 = steps (main windows root args w2).1 ∧
    exitStatus (main windows root args w1).2 =
      exitStatus (main windows root args w2).2 := by
  obtain ⟨hi1, ht1⟩ := main_char windows root args w1
  obtain ⟨hi2, ht2⟩ := main_char windows root args w2
  have e1 := hexec ["wasm-pack", "--version"] (by simp [relevantCmds])
  have e2 := hexec ["npm", "--version"] (by simp [relevantCmds])
  have e3 := hexec (wasmArgv root) (by simp [relevantCmds])
  have e4 := hexec ["npm", "install"] (by simp [relevantCmds])
  have e5 := hexec ["npm", "run", "build"] (by simp [relevantCmds])
  have e6 := hexec ["npm", "run", "dev"] (by simp [relevantCmds])
  have hpre : prereqOK w1 ↔ prereqOK w2 := by
    rw [prereqOK_iff, prereqOK_iff, e1, e2]
  constructor
  · simp only [steps, hi1, hi2, runInvs, e3, e4, hpre]
  · rw [ht1, ht2]
    simp only [runTerm, e3, e4, e5, e6, hpre, hint]

theorem claim_C7_witness :
    (∀ c ∈ relevantCmds "/repo", worldAllOk.exec c = worldOkElsewhereDiff.exec c) ∧
    (steps (main false "/repo" ⟨false, false, false, false⟩ worldAllOk).1 =
       steps (main false "/repo" ⟨false, false, false, false⟩ worldOkElsewhereDiff).1 ∧
     exitStatus (main false "/repo" ⟨false, false, false, false⟩ worldAllOk).2 =
       exitStatus (main false "/repo" ⟨false, false, false, false⟩ worldOkElsewhereDiff).2) :=
  ⟨by decide,
   claim_C7 false "/repo" ⟨false, false, false, false⟩ worldAllOk worldOkElsewhereDiff
     (by decide) rfl⟩

/-- Claim C8: on Windows every command is run through a shell and elsewhere
directly, and that choice changes nothing logical: the invocation sequences
agree except for the shell flag, and the termination (hence the exit status
and the success or failure of each step) is identical for the same external
behaviour. -/
theorem claim_C8 (root : String) (args : Args) (w : World) :
    ((main true root args w).1.invocations.map Invocation.noShell =
     (main false root args w).1.invocations.map Invocation.noShell) ∧
    (main true root args w).2 = (main false root args w).2 ∧
    (∀ i ∈ (main true root args w).1.invocations, i.shell = true) ∧
    (∀ i ∈ (main false root args w).1.invocations, i.shell = false) := by
  obtain ⟨hiT, htT⟩ := main_char true root args w
  obtain ⟨hiF, htF⟩ := main_char false root args w
  refine ⟨?_, ?_, ?_, ?_⟩
  · rw [hiT, hiF]
    simp only [runInvs, prereqInvs, prereqTools]
    split_ifs <;> simp [Invocation.noShell]
  · rw [htT, htF]
  · rw [hiT]
    simp only [runInvs, prereqInvs, prereqTools]
    split_ifs <;> simp
  · rw [hiF]
    simp only [runInvs, prereqInvs, prereqTools]
    split_ifs <;> simp

end BuildFrontend
